import Mathlib

/-!
Verification of the personnel scoring engine of `work-team-manager`.

The Python sources (`blueprints/personnel.py`, `services/algorithm_config_service.py`,
`migrate_add_algorithm_config.py`) are shallowly embedded below:

* Python floats become `ℚ`; `round(x, 1)` becomes `pyRound1`, a half-up rounding
  to one decimal (Python's float rounding is banker's rounding on binary floats;
  on the decimal grid used by the configs the two agree away from exact ties).
* SQLite integers become `ℤ`, list lengths `ℕ`.
* JSON config dicts become structures; `.get(key, default)` on optional keys
  becomes `Option` plus an explicit default.
* Date strings are embedded by their parse result: a date is represented by the
  number it is turned into (months before "now" for performance decay, years
  before "now" for the stability seniority ramps), with `Option` capturing
  `None` / unparseable inputs.
* Human readable f-strings that interpolate numbers are embedded by their fixed
  textual skeleton (the interpolated numbers are carried in dedicated numeric
  fields of the result structures).
-/

/-- Python `round(x, 1)`: round to one decimal place. -/
def pyRound1 (q : ℚ) : ℚ := (round (q * 10) : ℤ) / 10

/-- Python `round(x, 2)`: round to two decimal places. -/
def pyRound2 (q : ℚ) : ℚ := (round (q * 100) : ℤ) / 100

theorem pyRound1_mono {a b : ℚ} (h : a ≤ b) : pyRound1 a ≤ pyRound1 b := by
  unfold pyRound1
  have h10 : a * 10 ≤ b * 10 := by nlinarith
  have : round (a * 10) ≤ round (b * 10) := by
    rw [round_eq, round_eq]
    exact Int.floor_mono (by linarith)
  have : ((round (a * 10) : ℤ) : ℚ) ≤ ((round (b * 10) : ℤ) : ℚ) := by exact_mod_cast this
  linarith

theorem pyRound1_min (a b : ℚ) :
    pyRound1 (min a b) = min (pyRound1 a) (pyRound1 b) := by
  rcases le_total a b with h | h
  · rw [min_eq_left h, min_eq_left (pyRound1_mono h)]
  · rw [min_eq_right h, min_eq_right (pyRound1_mono h)]

/- ===================== Safety dimension calculator =====================
   Source: `blueprints/personnel.py`, `calculate_safety_score_dual_track`. -/

/-- Embeds `config['safety']['behavior_track']`: three ascending frequency thresholds
and three multipliers, accessed positionally (`[0]`, `[1]`, `[2]`). -/
structure BehaviorTrack where
  freq_thresholds : ℚ × ℚ × ℚ
  freq_multipliers : ℚ × ℚ × ℚ
deriving DecidableEq

/-- One entry of `severity_track.score_ranges`; `min` / `max` are optional keys
of the JSON rule dict. -/
structure SeverityRule where
  min : Option ℚ
  max : Option ℚ
  multiplier : ℚ
deriving DecidableEq

structure SeverityTrack where
  score_ranges : List SeverityRule
  critical_threshold : ℚ
deriving DecidableEq

structure SafetyThresholds where
  fail_score : ℚ
  warning_score : ℚ
deriving DecidableEq

structure SafetyConfig where
  behavior_track : BehaviorTrack
  severity_track : SeverityTrack
  thresholds : SafetyThresholds
deriving DecidableEq

/-- The per-violation multiplier lookup: scan `score_ranges` in listed order,
first matching rule wins (`max`-only means `< max`, `min`+`max` is a half-open
range, `min`-only means `≥ min`); no match keeps the initial `1.0`. -/
def severityMultiplier (rules : List SeverityRule) (v : ℚ) : ℚ :=
  match rules with
  | [] => 1
  | r :: rs =>
    match r.min, r.max with
    | none, some hi => if v < hi then r.multiplier else severityMultiplier rs v
    | some lo, some hi => if lo ≤ v ∧ v < hi then r.multiplier else severityMultiplier rs v
    | some lo, none => if lo ≤ v then r.multiplier else severityMultiplier rs v
    | none, none => severityMultiplier rs v

/-- Result dict of `calculate_safety_score_dual_track`. -/
structure SafetyResult where
  score_a : ℚ
  score_b : ℚ
  final_score : ℚ
  status_color : String
  alert_tag : String
  violation_count : ℕ
  avg_freq : ℤ
deriving DecidableEq

/-- Embeds `calculate_safety_score_dual_track(violations_list, months_active, config)`. -/
def calculate_safety_score_dual_track (cfg : SafetyConfig) (violations_list : List ℚ)
    (months_active : ℤ) : SafetyResult :=
  let violation_count := violations_list.length
  let avg_freq : ℤ :=
    if 0 < months_active then ⌈(violation_count : ℚ) / (months_active : ℚ)⌉ else 0
  let t := cfg.behavior_track.freq_thresholds
  let m := cfg.behavior_track.freq_multipliers
  let score_a_deduction : ℚ :=
    if (avg_freq : ℚ) ≤ t.1 then (avg_freq : ℚ) * m.1
    else if t.1 < (avg_freq : ℚ) ∧ (avg_freq : ℚ) ≤ t.2.1 then (avg_freq : ℚ) * m.2.1
    else (avg_freq : ℚ) * m.2.2
  let score_a : ℚ := max 0 (100 - score_a_deduction)
  let score_b_deduction : ℚ :=
    (violations_list.map (fun v => v * severityMultiplier cfg.severity_track.score_ranges v)).sum
  let has_critical : Bool :=
    violations_list.any (fun v => decide (cfg.severity_track.critical_threshold ≤ v))
  let score_b : ℚ := max 0 (100 - score_b_deduction)
  let final_score := min score_a score_b
  let color_tag : String × String :=
    if final_score < cfg.thresholds.fail_score ∨ has_critical = true then
      ("RED", if has_critical = true then "⛔ 重大红线（存在高扣分）" else "⛔ 安全不合格")
    else if cfg.thresholds.fail_score ≤ final_score ∧ final_score < cfg.thresholds.warning_score then
      ("ORANGE", if score_a < score_b then "⚠️ 高频违规风险" else "⚠️ 扣分过多风险")
    else ("GREEN", "✅ 安全")
  { score_a := pyRound1 score_a
    score_b := pyRound1 score_b
    final_score := pyRound1 final_score
    status_color := color_tag.1
    alert_tag := color_tag.2
    violation_count := violation_count
    avg_freq := avg_freq }

/-- C1: the returned `final_score` is the minimum of the two returned track
scores, for every violations list, months_active and config. -/
theorem safety_final_eq_min_tracks (cfg : SafetyConfig) (violations_list : List ℚ)
    (months_active : ℤ) :
    (calculate_safety_score_dual_track cfg violations_list months_active).final_score =
      min (calculate_safety_score_dual_track cfg violations_list months_active).score_a
        (calculate_safety_score_dual_track cfg violations_list months_active).score_b := by
  unfold calculate_safety_score_dual_track
  simp only
  exact pyRound1_min _ _

/- ===================== Performance dimension calculator =====================
   Source: `blueprints/personnel.py`, `calculate_performance_score_monthly`
   and `calculate_performance_score_period`. -/

/-- Python `str.upper()` (ASCII grades only in this code base). -/
def pyUpper (s : String) : String := ⟨s.data.map Char.toUpper⟩

/-- Embeds `grade = grade.upper() if grade else 'B+'`. -/
def normGrade (g : String) : String := if g = "" then "B+" else pyUpper g

/-- Embeds `coeff_map.get(grade, 1.0)` over the JSON dict `grade_coefficients`. -/
def coeffOf (m : List (String × ℚ)) (g : String) : ℚ := (m.lookup g).getD 1

/-- One `[min, max]` entry of `grade_ranges`. -/
structure GradeRange where
  min : ℚ
  max : ℚ
deriving DecidableEq

/-- The fields of `grade_ranges` the calculators read: D's `radar_override`
and the clamping ranges of the other grades. -/
structure GradeRanges where
  D_radar_override : ℚ
  C : GradeRange
  B : GradeRange
  Bplus : GradeRange
  A : GradeRange
deriving DecidableEq

structure ContaminationRules where
  d_count_threshold : ℚ
  c_count_threshold : ℚ
  d_cap_score : ℚ
  c_cap_score : ℚ
deriving DecidableEq

/-- Embeds `config['performance'].get('time_decay', {...})`; the inner keys are read
with `.get` and per-key defaults, hence the `Option` fields. -/
structure TimeDecayConfig where
  enabled : Option Bool
  decay_months : Option ℤ
  decay_rate : Option ℚ
deriving DecidableEq

structure PerformanceConfig where
  grade_coefficients : List (String × ℚ)
  grade_ranges : GradeRanges
  contamination_rules : ContaminationRules
  time_decay : Option TimeDecayConfig
deriving DecidableEq

def tdEnabled (p : PerformanceConfig) : Bool :=
  match p.time_decay with
  | none => true
  | some td => td.enabled.getD true

def tdMonths (p : PerformanceConfig) : ℤ :=
  match p.time_decay with
  | none => 6
  | some td => td.decay_months.getD 6

def tdRate (p : PerformanceConfig) : ℚ :=
  match p.time_decay with
  | none => 9/10
  | some td => td.decay_rate.getD (9/10)

/-- Result dict of `calculate_performance_score_monthly`.  `display_label`
keeps the grade-letter skeleton of the f-string (the interpolated
coefficient is configuration data, not computed output). -/
structure MonthlyResult where
  radar_value : ℚ
  display_label : String
  status_color : String
  alert_tag : String
  grade : String
deriving DecidableEq

/-- Embeds `calculate_performance_score_monthly(grade, raw_score, config)`. -/
def calculate_performance_score_monthly (cfg : PerformanceConfig) (grade : String)
    (raw_score : ℚ) : MonthlyResult :=
  let g := normGrade grade
  if g = "D" then
    { radar_value := pyRound1 cfg.grade_ranges.D_radar_override
      display_label := "D级", status_color := "RED", alert_tag := "⛔ 绩效不合格", grade := g }
  else if g = "C" then
    { radar_value := pyRound1 (min (max raw_score cfg.grade_ranges.C.min) cfg.grade_ranges.C.max)
      display_label := "C级", status_color := "ORANGE", alert_tag := "⚠️ 绩效预警", grade := g }
  else if g = "B" then
    { radar_value := pyRound1 (min (max raw_score cfg.grade_ranges.B.min) cfg.grade_ranges.B.max)
      display_label := "B级", status_color := "ORANGE", alert_tag := "⚠️ 未达基准", grade := g }
  else if g = "B+" then
    { radar_value := pyRound1 (min (max raw_score cfg.grade_ranges.Bplus.min) cfg.grade_ranges.Bplus.max)
      display_label := "B+级", status_color := "GREEN", alert_tag := "✅ 达标", grade := g }
  else if g = "A" then
    { radar_value := pyRound1 (min (max raw_score cfg.grade_ranges.A.min) cfg.grade_ranges.A.max)
      display_label := "A级", status_color := "GREEN", alert_tag := "✅ 优秀", grade := g }
  else
    { radar_value := pyRound1 (min (max raw_score cfg.grade_ranges.Bplus.min) cfg.grade_ranges.Bplus.max)
      display_label := "B+级", status_color := "GREEN", alert_tag := "✅ 达标", grade := g }

/-- Per-month coefficients, `coeffs` in the source (identical in both the
decay and the no-decay loop: `coeffs.append(coeff_map.get(grade, 1.0))`). -/
def periodCoeffs (m : List (String × ℚ)) (grades : List String) : List ℚ :=
  grades.map (fun g => coeffOf m (normGrade g))

/-- Embeds `avg_coeff = sum(coeffs) / len(coeffs) if coeffs else 1.0`. -/
def periodAvgCoeff (cfg : PerformanceConfig) (grades : List String) : ℚ :=
  if (periodCoeffs cfg.grade_coefficients grades).isEmpty then 1
  else (periodCoeffs cfg.grade_coefficients grades).sum /
    (periodCoeffs cfg.grade_coefficients grades).length

/-- Embeds `base_score = avg_coeff * 95`. -/
def periodBaseScore (cfg : PerformanceConfig) (grades : List String) : ℚ :=
  periodAvgCoeff cfg grades * 95

/-- Embeds `use_time_decay = time_decay.get('enabled', True) and grade_dates and
len(grade_dates) == len(grade_list)`.  A date is embedded by its parse
result: `some months_ago`, or `none` when `strptime` fails. -/
def useTimeDecay (cfg : PerformanceConfig) (grades : List String)
    (dates : Option (List (Option ℤ))) : Bool :=
  match dates with
  | none => false
  | some ds => tdEnabled cfg && !ds.isEmpty && (ds.length == grades.length)

/-- Decay weight contributed by one D (or C) month: parse failure counts `1`;
a parsed date within `decay_months` contributes `decay_rate ** months_ago`,
older dates contribute `0`. -/
def decayContribution (decay_months : ℤ) (decay_rate : ℚ) (p : Option ℤ) : ℚ :=
  match p with
  | none => 1
  | some months_ago => if months_ago ≤ decay_months then decay_rate ^ months_ago else 0

/-- Effective (decayed) count of months whose grade normalizes to `g0`. -/
def decayedCount (cfg : PerformanceConfig) (g0 : String)
    (pairs : List (String × Option ℤ)) : ℚ :=
  (pairs.map (fun p =>
    if normGrade p.1 = g0 then decayContribution (tdMonths cfg) (tdRate cfg) p.2 else 0)).sum

/-- Raw count of months whose grade normalizes to `g0` (the no-decay loop's
`d_count_effective = d_count`). -/
def rawCount (g0 : String) (grades : List String) : ℚ :=
  (grades.map (fun g => if normGrade g = g0 then (1 : ℚ) else 0)).sum

/-- Embeds `d_count_effective` as produced by the counting loops. -/
def dEffective (cfg : PerformanceConfig) (grades : List String)
    (dates : Option (List (Option ℤ))) : ℚ :=
  if useTimeDecay cfg grades dates then decayedCount cfg "D" (grades.zip (dates.getD []))
  else rawCount "D" grades

/-- Embeds `c_count_effective` as produced by the counting loops. -/
def cEffective (cfg : PerformanceConfig) (grades : List String)
    (dates : Option (List (Option ℤ))) : ℚ :=
  if useTimeDecay cfg grades dates then decayedCount cfg "C" (grades.zip (dates.getD []))
  else rawCount "C" grades

/-- Embeds `d_count` (raw number of D months, counted in every branch). -/
def dRawCount (grades : List String) : ℕ :=
  (grades.filter (fun g => normGrade g = "D")).length

/-- Result dict of `calculate_performance_score_period`.  `avg_coeff` is the
number interpolated into `display_label`; `alert_tag` keeps the fixed skeleton
of the source's alert strings. -/
structure PeriodResult where
  radar_value : ℚ
  avg_coeff : ℚ
  status_color : String
  alert_tag : String
  d_count_raw : ℕ
  d_count_effective : ℚ
  time_decay_applied : Bool
deriving DecidableEq

/-- Step 4 of the period algorithm, the contamination rule: the
`(final_score, status_color, alert_tag)` triple selected by the
`d_count_effective >= d_threshold` / `c_count_effective >= c_threshold`
if-chain (D over C over the normal tiering). -/
def periodBranch (cfg : PerformanceConfig) (grade_list : List String)
    (grade_dates : Option (List (Option ℤ))) : ℚ × String × String :=
  if cfg.contamination_rules.d_count_threshold ≤ dEffective cfg grade_list grade_dates then
    (min (periodBaseScore cfg grade_list) cfg.contamination_rules.d_cap_score,
      "RED", "⛔ 存在D级考核")
  else if cfg.contamination_rules.c_count_threshold ≤ cEffective cfg grade_list grade_dates then
    (min (periodBaseScore cfg grade_list) cfg.contamination_rules.c_cap_score,
      "ORANGE", "⚠️ 多次C级预警")
  else
    (min (periodBaseScore cfg grade_list) 110,
      if 95 ≤ min (periodBaseScore cfg grade_list) 110 then "GREEN"
      else if 80 ≤ min (periodBaseScore cfg grade_list) 110 then "ORANGE" else "RED",
      if 95 ≤ min (periodBaseScore cfg grade_list) 110 then "✅ 综合达标"
      else if 80 ≤ min (periodBaseScore cfg grade_list) 110 then "⚠️ 未达基准"
      else "⛔ 综合不合格")

/-- Embeds `calculate_performance_score_period(grade_list, grade_dates, config)`. -/
def calculate_performance_score_period (cfg : PerformanceConfig) (grade_list : List String)
    (grade_dates : Option (List (Option ℤ))) : PeriodResult :=
  if grade_list.isEmpty then
    -- early return `{'radar_value': 95.0, ...}`; the remaining fields are
    -- absent from the source dict and take the structure's placeholders here
    { radar_value := 95, avg_coeff := 1, status_color := "GREEN", alert_tag := "✅ 暂无数据"
      d_count_raw := 0, d_count_effective := 0, time_decay_applied := false }
  else
    let fc := periodBranch cfg grade_list grade_dates
    { radar_value := pyRound1 fc.1
      avg_coeff := periodAvgCoeff cfg grade_list
      status_color := fc.2.1
      alert_tag := fc.2.2
      d_count_raw := dRawCount grade_list
      d_count_effective := pyRound2 (dEffective cfg grade_list grade_dates)
      time_decay_applied := useTimeDecay cfg grade_list grade_dates }

/-- Embeds `STANDARD_CONFIG['performance']` from `migrate_add_algorithm_config.py`
(no `time_decay` key, so the calculator's defaults apply). -/
def stdPerformanceConfig : PerformanceConfig :=
  { grade_coefficients := [("D", 0), ("C", 3/5), ("B", 9/10), ("B+", 1), ("A", 11/10)]
    grade_ranges :=
      { D_radar_override := 50
        C := ⟨80, 899/10⟩, B := ⟨90, 949/10⟩, Bplus := ⟨95, 999/10⟩, A := ⟨100, 110⟩ }
    contamination_rules := ⟨1, 2, 90, 949/10⟩
    time_decay := none }

/-- Embeds `STANDARD_CONFIG['safety']` from `migrate_add_algorithm_config.py`. -/
def stdSafetyConfig : SafetyConfig :=
  { behavior_track := { freq_thresholds := (2, 5, 6), freq_multipliers := (2, 5, 10) }
    severity_track :=
      { score_ranges :=
          [ { min := none, max := some 3, multiplier := 1 }
          , { min := some 3, max := some 5, multiplier := 5/2 }
          , { min := some 5, max := none, multiplier := 5 } ]
        critical_threshold := 12 }
    thresholds := { fail_score := 60, warning_score := 90 } }

/-- C7: in single-period mode grade "D" ignores `raw_score`: the radar value is
always the configured `radar_override` and the status is RED; under the
standard config, grade "D" with `raw_score = 105` yields `50` / RED. -/
theorem performance_monthly_D_override (cfg : PerformanceConfig) (raw_score : ℚ) :
    ((calculate_performance_score_monthly cfg "D" raw_score).radar_value =
        pyRound1 cfg.grade_ranges.D_radar_override ∧
      (calculate_performance_score_monthly cfg "D" raw_score).status_color = "RED") ∧
    (calculate_performance_score_monthly stdPerformanceConfig "D" 105).radar_value = 50 ∧
    (calculate_performance_score_monthly stdPerformanceConfig "D" 105).status_color = "RED" :=
  ⟨⟨rfl, rfl⟩, by
    have h : normGrade "D" = "D" := rfl
    norm_num [calculate_performance_score_monthly, stdPerformanceConfig, h,
      pyRound1, round_eq], rfl⟩

theorem normGrade_D_eq : normGrade "D" = "D" := rfl

theorem normGrade_B_eq : normGrade "B" = "B" := rfl

theorem normGrade_D_ne_C : normGrade "D" = "C" → False := by
  intro h
  exact absurd (normGrade_D_eq.symm.trans h) (by simp)

theorem decayContribution_nonneg (dm : ℤ) {rate : ℚ} (h : 0 ≤ rate) (p : Option ℤ) :
    0 ≤ decayContribution dm rate p := by
  cases p with
  | none => simp [decayContribution]
  | some m =>
    simp only [decayContribution]
    split
    · exact zpow_nonneg h m
    · exact le_refl 0

theorem rawCount_append (g0 g : String) (grades : List String) :
    rawCount g0 (grades ++ [g]) =
      rawCount g0 grades + (if normGrade g = g0 then (1 : ℚ) else 0) := by
  simp [rawCount]

theorem decayedCount_append (cfg : PerformanceConfig) (g0 : String)
    (pairs : List (String × Option ℤ)) (p : String × Option ℤ) :
    decayedCount cfg g0 (pairs ++ [p]) =
      decayedCount cfg g0 pairs +
        (if normGrade p.1 = g0 then decayContribution (tdMonths cfg) (tdRate cfg) p.2 else 0) := by
  simp [decayedCount]

theorem useTimeDecay_append (cfg : PerformanceConfig) (g : String) (grades : List String)
    (ds : List (Option ℤ)) (dnew : Option ℤ) (hne : grades ≠ []) :
    useTimeDecay cfg (grades ++ [g]) (some (ds ++ [dnew])) =
      useTimeDecay cfg grades (some ds) := by
  have hlen : 0 < grades.length := List.length_pos.mpr hne
  cases ds with
  | nil =>
    simp [useTimeDecay]
    exact fun _ => hne
  | cons d0 ds' =>
    simp [useTimeDecay]

theorem dEffective_append_D (cfg : PerformanceConfig) (grades : List String)
    (dates : Option (List (Option ℤ))) (dnew : Option ℤ) (hne : grades ≠ [])
    (hrate : 0 ≤ tdRate cfg) :
    ∃ w, 0 ≤ w ∧
      dEffective cfg (grades ++ ["D"]) (dates.map (fun ds => ds ++ [dnew])) =
        dEffective cfg grades dates + w := by
  cases dates with
  | none =>
    refine ⟨1, by norm_num, ?_⟩
    simp [dEffective, useTimeDecay, rawCount_append, normGrade_D_eq]
  | some ds =>
    simp only [Option.map_some']
    rw [dEffective, dEffective, useTimeDecay_append cfg "D" grades ds dnew hne]
    by_cases hu : useTimeDecay cfg grades (some ds) = true
    · have hlen : ds.length = grades.length := by
        simp only [useTimeDecay, Bool.and_eq_true, beq_iff_eq] at hu
        exact hu.2
      refine ⟨decayContribution (tdMonths cfg) (tdRate cfg) dnew,
        decayContribution_nonneg _ hrate _, ?_⟩
      rw [if_pos hu, if_pos hu]
      simp only [Option.getD_some]
      rw [List.zip_append hlen.symm]
      simp [decayedCount_append, normGrade_D_eq]
    · refine ⟨1, by norm_num, ?_⟩
      rw [if_neg hu, if_neg hu, rawCount_append]
      simp [normGrade_D_eq]

theorem cEffective_append_D (cfg : PerformanceConfig) (grades : List String)
    (dates : Option (List (Option ℤ))) (dnew : Option ℤ) (hne : grades ≠ []) :
    cEffective cfg (grades ++ ["D"]) (dates.map (fun ds => ds ++ [dnew])) =
      cEffective cfg grades dates := by
  cases dates with
  | none =>
    simp [cEffective, useTimeDecay, rawCount_append, normGrade_D_eq]
  | some ds =>
    simp only [Option.map_some']
    rw [cEffective, cEffective, useTimeDecay_append cfg "D" grades ds dnew hne]
    by_cases hu : useTimeDecay cfg grades (some ds) = true
    · have hlen : ds.length = grades.length := by
        simp only [useTimeDecay, Bool.and_eq_true, beq_iff_eq] at hu
        exact hu.2
      rw [if_pos hu, if_pos hu]
      simp only [Option.getD_some]
      rw [List.zip_append hlen.symm]
      simp [decayedCount_append, normGrade_D_eq]
    · rw [if_neg hu, if_neg hu, rawCount_append]
      simp [normGrade_D_eq]

theorem periodCoeffs_append_D (m : List (String × ℚ)) (grades : List String) :
    periodCoeffs m (grades ++ ["D"]) = periodCoeffs m grades ++ [coeffOf m "D"] := by
  simp [periodCoeffs, normGrade_D_eq]

theorem periodAvgCoeff_append_D_le (cfg : PerformanceConfig) (grades : List String)
    (hne : grades ≠ [])
    (hmin : ∀ g ∈ grades,
      coeffOf cfg.grade_coefficients "D" ≤ coeffOf cfg.grade_coefficients (normGrade g)) :
    periodAvgCoeff cfg (grades ++ ["D"]) ≤ periodAvgCoeff cfg grades := by
  have hlen : 0 < grades.length := List.length_pos.mpr hne
  have hlenq : (1 : ℚ) ≤ grades.length := by exact_mod_cast hlen
  have hcoeffs_len : (periodCoeffs cfg.grade_coefficients grades).length = grades.length := by
    simp [periodCoeffs]
  have hbound : ∀ x ∈ periodCoeffs cfg.grade_coefficients grades,
      coeffOf cfg.grade_coefficients "D" ≤ x := by
    intro x hx
    rcases List.mem_map.mp hx with ⟨g, hg, rfl⟩
    exact hmin g hg
  have hsum : (grades.length : ℚ) * coeffOf cfg.grade_coefficients "D" ≤
      (periodCoeffs cfg.grade_coefficients grades).sum := by
    have := List.card_nsmul_le_sum (periodCoeffs cfg.grade_coefficients grades)
      (coeffOf cfg.grade_coefficients "D") hbound
    rwa [nsmul_eq_mul, hcoeffs_len] at this
  unfold periodAvgCoeff
  rw [periodCoeffs_append_D]
  have h1 : (periodCoeffs cfg.grade_coefficients grades ++
      [coeffOf cfg.grade_coefficients "D"]).isEmpty = false := by
    simp
  have h2 : (periodCoeffs cfg.grade_coefficients grades).isEmpty = false := by
    rw [List.isEmpty_eq_false_iff_exists_mem]
    rcases grades with _ | ⟨g, gs⟩
    · exact absurd rfl hne
    · exact ⟨coeffOf cfg.grade_coefficients (normGrade g), by simp [periodCoeffs]⟩
  rw [h1, h2]
  simp only [Bool.false_eq_true, if_false, List.sum_append, List.length_append,
    List.sum_cons, List.sum_nil, List.length_cons, List.length_nil, add_zero]
  rw [hcoeffs_len]
  have hn0 : (0 : ℚ) < (grades.length : ℚ) := by exact_mod_cast hlen
  have hn1 : (0 : ℚ) < ((grades.length + 1 : ℕ) : ℚ) := by positivity
  rw [div_le_div_iff₀ hn1 hn0]
  push_cast
  nlinarith [hsum]

/-- Configuration refuting the unrestricted monotonicity claim: the standard
preset with grade D's coefficient raised to 1.2 (still inside the validated
[0, 2] range) and contamination thresholds raised to 10. -/
def c4CounterConfig : PerformanceConfig :=
  { stdPerformanceConfig with
    grade_coefficients := [("D", 6/5), ("C", 3/5), ("B", 9/10), ("B+", 1), ("A", 11/10)]
    contamination_rules := ⟨10, 10, 90, 949/10⟩ }

/-- C4 counterexample: with a configuration whose D coefficient exceeds the
other coefficients in use, appending one more D month strictly increases the
period radar value (["B"] scores 85.5, ["B", "D"] scores 99.8). -/
theorem period_append_D_can_increase :
    (calculate_performance_score_period c4CounterConfig ["B"] none).radar_value <
      (calculate_performance_score_period c4CounterConfig ["B", "D"] none).radar_value := by
  have cB : coeffOf [("D", (6:ℚ)/5), ("C", 3/5), ("B", 9/10), ("B+", 1), ("A", 11/10)] "B"
      = 9/10 := rfl
  have cD : coeffOf [("D", (6:ℚ)/5), ("C", 3/5), ("B", 9/10), ("B+", 1), ("A", 11/10)] "D"
      = 6/5 := rfl
  have h1 : (calculate_performance_score_period c4CounterConfig ["B"] none).radar_value
      = 171/2 := by
    simp only [calculate_performance_score_period, periodBranch, dEffective, cEffective,
      useTimeDecay, rawCount, periodBaseScore, periodAvgCoeff, periodCoeffs,
      List.map_cons, List.map_nil, List.sum_cons, List.sum_nil, List.length_cons,
      List.length_nil, List.isEmpty_cons, normGrade_B_eq, normGrade_D_eq,
      c4CounterConfig, stdPerformanceConfig]
    simp [cB, cD]
    norm_num [pyRound1, round_eq]
  have h2 : (calculate_performance_score_period c4CounterConfig ["B", "D"] none).radar_value
      = 499/5 := by
    simp only [calculate_performance_score_period, periodBranch, dEffective, cEffective,
      useTimeDecay, rawCount, periodBaseScore, periodAvgCoeff, periodCoeffs,
      List.map_cons, List.map_nil, List.sum_cons, List.sum_nil, List.length_cons,
      List.length_nil, List.isEmpty_cons, normGrade_B_eq, normGrade_D_eq,
      c4CounterConfig, stdPerformanceConfig]
    simp [cB, cD]
    norm_num [pyRound1, round_eq]
  rw [h1, h2]
  norm_num

theorem period_radar_nonempty (cfg : PerformanceConfig) (grades : List String)
    (dates : Option (List (Option ℤ))) (h : grades.isEmpty = false) :
    (calculate_performance_score_period cfg grades dates).radar_value =
      pyRound1 (periodBranch cfg grades dates).1 := by
  simp [calculate_performance_score_period, h]

/-- C4 (amended): appending one more D-grade month (any date, all other
grades, dates and the config held equal) never increases the period radar
value, provided the configuration gives grade D a coefficient that is at most
1 and at most every coefficient in use, orders the caps as
`d_cap_score ≤ c_cap_score ≤ 110`, and uses a nonnegative decay rate — all
true of the shipped presets.  (Unrestricted over configs the claim is false,
see the counterexample.) -/
theorem period_append_D_monotone (cfg : PerformanceConfig) (grades : List String)
    (dates : Option (List (Option ℤ))) (dnew : Option ℤ)
    (hd1 : coeffOf cfg.grade_coefficients "D" ≤ 1)
    (hmin : ∀ g ∈ grades,
      coeffOf cfg.grade_coefficients "D" ≤ coeffOf cfg.grade_coefficients (normGrade g))
    (hcapdc : cfg.contamination_rules.d_cap_score ≤ cfg.contamination_rules.c_cap_score)
    (hcap110 : cfg.contamination_rules.c_cap_score ≤ 110)
    (hrate : 0 ≤ tdRate cfg) :
    (calculate_performance_score_period cfg (grades ++ ["D"])
        (dates.map (fun ds => ds ++ [dnew]))).radar_value ≤
      (calculate_performance_score_period cfg grades dates).radar_value := by
  by_cases hne : grades = []
  · subst hne
    have hlhs := period_radar_nonempty cfg (([] : List String) ++ ["D"])
      ((dates.map (fun ds => ds ++ [dnew]))) (by simp)
    rw [hlhs]
    have hrhs : (calculate_performance_score_period cfg [] dates).radar_value = 95 := by
      simp [calculate_performance_score_period]
    rw [hrhs]
    have hbase : periodBaseScore cfg ([] ++ ["D"]) ≤ 95 := by
      have hb : periodBaseScore cfg ([] ++ ["D"]) =
          coeffOf cfg.grade_coefficients "D" * 95 := by
        simp [periodBaseScore, periodAvgCoeff, periodCoeffs, normGrade_D_eq]
      rw [hb]
      nlinarith
    have hb95 : (periodBranch cfg ([] ++ ["D"]) (dates.map (fun ds => ds ++ [dnew]))).1
        ≤ 95 := by
      unfold periodBranch
      split_ifs <;> dsimp only <;> exact le_trans (min_le_left _ _) hbase
    calc pyRound1 (periodBranch cfg ([] ++ ["D"]) (dates.map (fun ds => ds ++ [dnew]))).1
        ≤ pyRound1 95 := pyRound1_mono hb95
      _ = 95 := by norm_num [pyRound1, round_eq]
  · rw [period_radar_nonempty cfg (grades ++ ["D"]) _ (by simp),
      period_radar_nonempty cfg grades dates (by simp [hne])]
    apply pyRound1_mono
    obtain ⟨w, hw0, hd⟩ := dEffective_append_D cfg grades dates dnew hne hrate
    have hc := cEffective_append_D cfg grades dates dnew hne
    have hbase : periodBaseScore cfg (grades ++ ["D"]) ≤ periodBaseScore cfg grades := by
      unfold periodBaseScore
      have := periodAvgCoeff_append_D_le cfg grades hne hmin
      nlinarith
    unfold periodBranch
    rw [hd, hc]
    split_ifs <;> dsimp only <;>
      first
        | exact min_le_min hbase le_rfl
        | exact le_min ((min_le_left _ _).trans hbase) ((min_le_right _ _).trans hcapdc)
        | exact le_min ((min_le_left _ _).trans hbase)
            ((min_le_right _ _).trans (hcapdc.trans hcap110))
        | linarith

/-- Witness for the amended C4 theorem at the standard preset:
["B"] extended by one "D" month. -/
theorem period_append_D_monotone_witness :
    coeffOf stdPerformanceConfig.grade_coefficients "D" ≤ 1 ∧
    (calculate_performance_score_period stdPerformanceConfig (["B"] ++ ["D"])
        ((none : Option (List (Option ℤ))).map (fun ds => ds ++ [some 0]))).radar_value ≤
      (calculate_performance_score_period stdPerformanceConfig ["B"] none).radar_value := by
  have hd0 : coeffOf stdPerformanceConfig.grade_coefficients "D" = 0 := rfl
  refine ⟨by rw [hd0]; norm_num, ?_⟩
  refine period_append_D_monotone stdPerformanceConfig ["B"] none (some 0)
    (by rw [hd0]; norm_num) ?_ (by norm_num [stdPerformanceConfig]) (by norm_num [stdPerformanceConfig])
    (by rw [show tdRate stdPerformanceConfig = 9/10 from rfl]; norm_num)
  intro g hg
  have hgB : g = "B" := by simpa using hg
  subst hgB
  rw [hd0, show coeffOf stdPerformanceConfig.grade_coefficients (normGrade "B")
    = 9/10 from rfl]
  norm_num

theorem period_avg_nonempty (cfg : PerformanceConfig) (grades : List String)
    (dates : Option (List (Option ℤ))) (h : grades.isEmpty = false) :
    (calculate_performance_score_period cfg grades dates).avg_coeff =
      periodAvgCoeff cfg grades := by
  simp [calculate_performance_score_period, h]

/-- C5: in period mode the averaged coefficient is the plain (undecayed) mean
of the per-month grade coefficients, unchanged by any choice of
`grade_dates`; and below both contamination thresholds the radar value is
exactly `round(min(avg * 95, 110), 1)`. -/
theorem period_base_score_undecayed (cfg : PerformanceConfig) (grades : List String)
    (d1 d2 : Option (List (Option ℤ))) (hne : grades ≠ []) :
    ((calculate_performance_score_period cfg grades d1).avg_coeff =
        (periodCoeffs cfg.grade_coefficients grades).sum / (grades.length : ℚ) ∧
      (calculate_performance_score_period cfg grades d1).avg_coeff =
        (calculate_performance_score_period cfg grades d2).avg_coeff) ∧
    (dEffective cfg grades d1 < cfg.contamination_rules.d_count_threshold →
      cEffective cfg grades d1 < cfg.contamination_rules.c_count_threshold →
      (calculate_performance_score_period cfg grades d1).radar_value =
        pyRound1 (min (periodBaseScore cfg grades) 110)) := by
  have hie : grades.isEmpty = false := by simp [hne]
  have havg : periodAvgCoeff cfg grades =
      (periodCoeffs cfg.grade_coefficients grades).sum / (grades.length : ℚ) := by
    unfold periodAvgCoeff
    have h2 : (periodCoeffs cfg.grade_coefficients grades).isEmpty = false := by
      simp [periodCoeffs, hne]
    rw [h2]
    simp [periodCoeffs]
  refine ⟨⟨by rw [period_avg_nonempty cfg grades d1 hie, havg],
    by rw [period_avg_nonempty cfg grades d1 hie, period_avg_nonempty cfg grades d2 hie]⟩,
    fun hD hC => ?_⟩
  rw [period_radar_nonempty cfg grades d1 hie]
  unfold periodBranch
  rw [if_neg (not_le.mpr hD), if_neg (not_le.mpr hC)]

/-- Witness for the C5 theorem: a single "A" month under the standard preset. -/
theorem period_base_score_undecayed_witness :
    (["A"] : List String) ≠ [] ∧
    (calculate_performance_score_period stdPerformanceConfig ["A"] none).radar_value =
      pyRound1 (min (periodBaseScore stdPerformanceConfig ["A"]) 110) := by
  have hA : normGrade "A" = "A" := rfl
  have hd : dEffective stdPerformanceConfig ["A"] none = 0 := by
    simp [dEffective, useTimeDecay, rawCount, hA]
  have hc : cEffective stdPerformanceConfig ["A"] none = 0 := by
    simp [cEffective, useTimeDecay, rawCount, hA]
  refine ⟨by simp, ?_⟩
  refine (period_base_score_undecayed stdPerformanceConfig ["A"] none (some [none])
    (by simp)).2 ?_ ?_
  · rw [hd]
    norm_num [stdPerformanceConfig]
  · rw [hc]
    norm_num [stdPerformanceConfig]

/- ===================== Training dimension calculator =====================
   Source: `blueprints/personnel.py`, `calculate_training_score_with_penalty`. -/

/-- One training record tuple `(score, is_qualified, is_disqualified,
training_date)`; the date is never read by the calculator and is omitted. -/
structure TrainingRecord where
  score : ℚ
  is_qualified : ℤ
  is_disqualified : ℤ
deriving DecidableEq

structure AbsoluteThreshold where
  fail_count : ℤ
  coefficient : ℚ
deriving DecidableEq

structure SmallSample where
  sample_size : ℤ
  coefficient : ℚ
deriving DecidableEq

/-- One AFR rule `{min, max?, coefficient, label}`. -/
structure AfrRule where
  min : ℚ
  max : Option ℚ
  coefficient : ℚ
  label : String
deriving DecidableEq

/-- Embeds `training.penalty_rules`; the three AFR tables are optional JSON keys read
with `.get`. -/
structure PenaltyRules where
  absolute_threshold : AbsoluteThreshold
  small_sample : SmallSample
  afr_thresholds : Option (List AfrRule)
  afr_thresholds_new_employee : Option (List AfrRule)
  afr_thresholds_experienced : Option (List AfrRule)
deriving DecidableEq

structure DurationDefaults where
  short : ℚ
  mid : ℚ
  long : ℚ
deriving DecidableEq

structure DurationThresholds where
  short_term_days : ℤ
  mid_term_days : ℤ
  default_scores : DurationDefaults
deriving DecidableEq

structure TrainingConfig where
  penalty_rules : PenaltyRules
  duration_thresholds : DurationThresholds
deriving DecidableEq

/-- Disqualification test: `is_disqualified == 1 or score == 0 or
is_qualified == 0`. -/
def isFailRecord (r : TrainingRecord) : Bool :=
  r.is_disqualified == 1 || r.score == 0 || r.is_qualified == 0

def failCount (records : List TrainingRecord) : ℕ :=
  (records.filter isFailRecord).length

/-- AFR table selection: new employees (`cert_years is None or < 1.0`) use
`afr_thresholds_new_employee`, the rest `afr_thresholds_experienced`, both
falling back to the unsplit `afr_thresholds` and then to `[]`. -/
def afrTable (pr : PenaltyRules) (is_new : Bool) : List AfrRule :=
  if is_new then pr.afr_thresholds_new_employee.getD (pr.afr_thresholds.getD [])
  else pr.afr_thresholds_experienced.getD (pr.afr_thresholds.getD [])

/-- The AFR threshold scan: rules checked in listed order, first match wins;
a rule with `max` matches `min <= AFR < max` (WARNING when its coefficient is
at most 0.7, else NOTICE), a rule without `max` matches `AFR >= min`
(CRITICAL).  Returns `(coefficient, tag_level, label)`. -/
def afrScan (rules : List AfrRule) (afr : ℚ) : Option (ℚ × String × String) :=
  match rules with
  | [] => none
  | r :: rs =>
    match r.max with
    | some hi =>
      if r.min ≤ afr ∧ afr < hi then
        some (r.coefficient, if r.coefficient ≤ 7/10 then "WARNING" else "NOTICE", r.label)
      else afrScan rs afr
    | none =>
      if r.min ≤ afr then some (r.coefficient, "CRITICAL", r.label)
      else afrScan rs afr

/-- Result dict of `calculate_training_score_with_penalty`; the `stats` and
`risk_alert` sub-dicts are flattened (`duration_days` is the value placed in
`stats`, i.e. after the AFR branch's `max(1, duration_days)` reassignment;
the free-text `text`/`description` strings are omitted). -/
structure TrainingResult where
  radar_score : ℚ
  original_score : ℚ
  penalty_coefficient : ℚ
  total_ops : ℕ
  fail_count : ℕ
  duration_days : ℤ
  risk_show : Bool
  tag_level : String
  status_color : String
deriving DecidableEq

/-- Embeds `calculate_training_score_with_penalty(training_records, duration_days,
cert_years, config)`. -/
def calculate_training_score_with_penalty (cfg : TrainingConfig)
    (training_records : List TrainingRecord) (duration_days : ℤ)
    (cert_years : Option ℚ) : TrainingResult :=
  if training_records.isEmpty then
    if duration_days ≤ cfg.duration_thresholds.short_term_days then
      { radar_score := cfg.duration_thresholds.default_scores.short
        original_score := cfg.duration_thresholds.default_scores.short
        penalty_coefficient := 1, total_ops := 0, fail_count := 0
        duration_days := duration_days, risk_show := true
        tag_level := "NORMAL", status_color := "GREEN" }
    else if duration_days ≤ cfg.duration_thresholds.mid_term_days then
      { radar_score := cfg.duration_thresholds.default_scores.mid
        original_score := cfg.duration_thresholds.default_scores.mid
        penalty_coefficient := 1, total_ops := 0, fail_count := 0
        duration_days := duration_days, risk_show := true
        tag_level := "NOTICE", status_color := "YELLOW" }
    else
      { radar_score := cfg.duration_thresholds.default_scores.long
        original_score := cfg.duration_thresholds.default_scores.long
        penalty_coefficient := 1, total_ops := 0, fail_count := 0
        duration_days := duration_days, risk_show := true
        tag_level := "CRITICAL", status_color := "RED" }
  else
    let total_ops := training_records.length
    let fc := failCount training_records
    let total_score := (training_records.map (fun r => r.score)).sum
    let base_score : ℚ := if 0 < total_ops then total_score / (total_ops : ℚ) else 0
    let pr := cfg.penalty_rules
    let is_new : Bool :=
      match cert_years with
      | none => true
      | some y => decide (y < 1)
    let sel : ℚ × String × ℤ :=
      if pr.absolute_threshold.fail_count ≤ (fc : ℤ) then
        (pr.absolute_threshold.coefficient, "CRITICAL", duration_days)
      else if (total_ops : ℤ) < pr.small_sample.sample_size ∧ 0 < fc then
        (pr.small_sample.coefficient, "HIGH_RISK", duration_days)
      else if pr.small_sample.sample_size ≤ (total_ops : ℤ) then
        match afrScan (afrTable pr is_new) ((fc : ℚ) / ((max 1 duration_days : ℤ) : ℚ) * 365) with
        | some (c, tag, _) => (c, tag, max 1 duration_days)
        | none => (1, "NORMAL", max 1 duration_days)
      else
        (1, "NORMAL", duration_days)
    { radar_score := pyRound1 (base_score * sel.1)
      original_score := pyRound1 base_score
      penalty_coefficient := sel.1
      total_ops := total_ops
      fail_count := fc
      duration_days := sel.2.2
      risk_show := decide (0 < fc)
      tag_level := sel.2.1
      status_color :=
        if sel.2.1 = "CRITICAL" then "RED"
        else if sel.2.1 = "HIGH_RISK" then "PURPLE"
        else if sel.2.1 = "WARNING" then "ORANGE"
        else if sel.2.1 = "NOTICE" then "YELLOW"
        else "GREEN" }

/-- Embeds `STANDARD_CONFIG['training']` from `migrate_add_algorithm_config.py`. -/
def stdTrainingConfig : TrainingConfig :=
  { penalty_rules :=
      { absolute_threshold := ⟨3, 1/2⟩
        small_sample := ⟨10, 7/10⟩
        afr_thresholds := some
          [ ⟨5/2, none, 1/2, "高频失格"⟩
          , ⟨3/2, some (5/2), 7/10, "频率偏高"⟩
          , ⟨1/2, some (3/2), 9/10, "偶发失格"⟩ ]
        afr_thresholds_new_employee := none
        afr_thresholds_experienced := none }
    duration_thresholds :=
      { short_term_days := 60, mid_term_days := 180
        default_scores := ⟨65, 50, 0⟩ } }

/-- C2: with at least one record, once the computed `fail_count` reaches
`absolute_threshold.fail_count` the CRITICAL coefficient
`absolute_threshold.coefficient` applies regardless of sample size or AFR; in
particular 3 failing records out of 3 under the standard config yield
coefficient 0.5, not the small-sample 0.7. -/
theorem training_absolute_threshold_dominates (cfg : TrainingConfig)
    (records : List TrainingRecord) (duration_days : ℤ) (cert_years : Option ℚ)
    (hne : records ≠ [])
    (hfail : cfg.penalty_rules.absolute_threshold.fail_count ≤ (failCount records : ℤ)) :
    (calculate_training_score_with_penalty cfg records duration_days
        cert_years).penalty_coefficient =
      cfg.penalty_rules.absolute_threshold.coefficient ∧
    (calculate_training_score_with_penalty cfg records duration_days
        cert_years).tag_level = "CRITICAL" ∧
    (calculate_training_score_with_penalty stdTrainingConfig
        [⟨80, 0, 1⟩, ⟨80, 0, 1⟩, ⟨80, 0, 1⟩] 30 none).penalty_coefficient = 1/2 := by
  have hie : records.isEmpty = false := by simp [hne]
  refine ⟨?_, ?_, ?_⟩
  · simp only [calculate_training_score_with_penalty, hie, Bool.false_eq_true, if_false,
      if_pos hfail]
  · simp only [calculate_training_score_with_penalty, hie, Bool.false_eq_true, if_false,
      if_pos hfail]
  · have h3 : failCount [⟨80, 0, 1⟩, ⟨80, 0, 1⟩, ⟨80, 0, 1⟩] = 3 := by decide
    simp only [calculate_training_score_with_penalty, stdTrainingConfig, h3]
    norm_num

/-- Witness for the C2 theorem: three disqualified records, standard config. -/
theorem training_absolute_threshold_witness :
    stdTrainingConfig.penalty_rules.absolute_threshold.fail_count ≤
      (failCount [⟨80, 0, 1⟩, ⟨80, 0, 1⟩, ⟨80, 0, 1⟩] : ℤ) ∧
    (calculate_training_score_with_penalty stdTrainingConfig
        [⟨80, 0, 1⟩, ⟨80, 0, 1⟩, ⟨80, 0, 1⟩] 30 none).penalty_coefficient =
      stdTrainingConfig.penalty_rules.absolute_threshold.coefficient := by
  have hf : stdTrainingConfig.penalty_rules.absolute_threshold.fail_count ≤
      (failCount [⟨80, 0, 1⟩, ⟨80, 0, 1⟩, ⟨80, 0, 1⟩] : ℤ) := by decide
  exact ⟨hf, (training_absolute_threshold_dominates stdTrainingConfig
    [⟨80, 0, 1⟩, ⟨80, 0, 1⟩, ⟨80, 0, 1⟩] 30 none (by simp) hf).1⟩

/- ===================== Algorithm configuration service =====================
   Source: `services/algorithm_config_service.py`, `AlgorithmConfigService`. -/

/-- View of `config_data["performance"]` as inspected by `validate_config`
(only `grade_coefficients` is read there). -/
structure ValPerformance where
  grade_coefficients : Option (List (String × ℚ))
deriving DecidableEq

structure ValSeverityTrack where
  critical_threshold : Option ℚ
deriving DecidableEq

structure ValSafety where
  severity_track : Option ValSeverityTrack
deriving DecidableEq

structure ValAbsoluteThreshold where
  fail_count : Option ℤ
deriving DecidableEq

structure ValPenaltyRules where
  absolute_threshold : Option ValAbsoluteThreshold
deriving DecidableEq

structure ValTraining where
  penalty_rules : Option ValPenaltyRules
deriving DecidableEq

structure ValComprehensive where
  score_weights : Option (List (String × ℚ))
deriving DecidableEq

structure ValKeyPersonnel where
  comprehensive_threshold : Option ℚ
deriving DecidableEq

/-- A configuration document as inspected by `validate_config`: each required
section is an optional key of the JSON dict. -/
structure ValConfig where
  performance : Option ValPerformance
  safety : Option ValSafety
  training : Option ValTraining
  comprehensive : Option ValComprehensive
  key_personnel : Option ValKeyPersonnel
deriving DecidableEq

/-- Step 2 of `validate_config`: `grade_coefficients` present, all five grades
present, each coefficient within `[0, 2]`. -/
def validGrades (perf : ValPerformance) : Bool :=
  match perf.grade_coefficients with
  | none => false
  | some gc =>
    ["D", "C", "B", "B+", "A"].all fun g =>
      match gc.lookup g with
      | none => false
      | some c => decide (0 ≤ c ∧ c ≤ 2)

/-- Step 3: `critical_threshold`, when present, within `[1, 50]`. -/
def validSafetySection (saf : ValSafety) : Bool :=
  match saf.severity_track with
  | none => true
  | some st =>
    match st.critical_threshold with
    | none => true
    | some t => decide (1 ≤ t ∧ t ≤ 50)

/-- Step 4: `absolute_threshold.get('fail_count', 3)` within `[1, 10]`. -/
def validTrainingSection (tr : ValTraining) : Bool :=
  match tr.penalty_rules with
  | none => true
  | some pr =>
    match pr.absolute_threshold with
    | none => true
    | some at0 => decide (1 ≤ at0.fail_count.getD 3 ∧ at0.fail_count.getD 3 ≤ 10)

/-- Step 5: `score_weights` present and `abs(sum(values()) - 1.0) <= 0.01`. -/
def validWeights (comp : ValComprehensive) : Bool :=
  match comp.score_weights with
  | none => false
  | some sw => decide (|((sw.map Prod.snd).sum) - 1| ≤ 1/100)

/-- Step 6: `comprehensive_threshold` present and within `[0, 100]`. -/
def validKeyPersonnel (kp : ValKeyPersonnel) : Bool :=
  match kp.comprehensive_threshold with
  | none => false
  | some t => decide (0 ≤ t ∧ t ≤ 100)

/-- Embeds `AlgorithmConfigService.validate_config(config_data)` (the boolean
component; the textual error message is omitted). -/
def validate_config (c : ValConfig) : Bool :=
  match c.performance, c.safety, c.training, c.comprehensive, c.key_personnel with
  | some perf, some saf, some tr, some comp, some kp =>
    validGrades perf && validSafetySection saf && validTrainingSection tr &&
      validWeights comp && validKeyPersonnel kp
  | _, _, _, _, _ => false

/-- One row of `algorithm_config_logs` (audit columns flattened; the config
snapshots are carried as values rather than JSON strings). -/
structure ConfigLogEntry where
  action : String
  preset_name : Option String
  old_config : Option ValConfig
  new_config : ValConfig
  change_reason : String
  changed_by : ℤ
deriving DecidableEq

/-- The `algorithm_active_config` singleton row. -/
structure ActiveConfigRow where
  based_on_preset : Option String
  is_customized : Bool
  config_data : ValConfig
deriving DecidableEq

/-- The mutable state touched by `update_custom_config`: the active-config
row, the append-only log, and the in-process cache. -/
structure AlgoStoreState where
  active : Option ActiveConfigRow
  logs : List ConfigLogEntry
  cache : Option ValConfig
deriving DecidableEq

/-- Embeds `AlgorithmConfigService.update_custom_config(config_data, user_id,
reason)`: validate first and return failure without touching anything;
otherwise replace the active row (`is_customized=1`, `based_on_preset=NULL`),
append one log entry and clear the cache. -/
def update_custom_config (st : AlgoStoreState) (config_data : ValConfig)
    (user_id : ℤ) (reason : String) : AlgoStoreState × Bool :=
  if validate_config config_data = false then (st, false)
  else
    ({ active := some { based_on_preset := none, is_customized := true
                        config_data := config_data }
       logs := st.logs ++ [{ action := "CUSTOM_UPDATE", preset_name := none
                             old_config := st.active.map (fun r => r.config_data)
                             new_config := config_data, change_reason := reason
                             changed_by := user_id }]
       cache := none }, true)

/-- Embeds `STANDARD_CONFIG` restricted to the fields `validate_config` inspects. -/
def stdValConfig : ValConfig :=
  { performance := some ⟨some [("D", 0), ("C", 3/5), ("B", 9/10), ("B+", 1), ("A", 11/10)]⟩
    safety := some ⟨some ⟨some 12⟩⟩
    training := some ⟨some ⟨some ⟨some 3⟩⟩⟩
    comprehensive := some ⟨some [("performance", 35/100), ("safety", 30/100),
      ("training", 20/100), ("stability", 10/100), ("learning", 5/100)]⟩
    key_personnel := some ⟨some 70⟩ }

/-- C3: `validate_config` accepts a configuration only if the sum of the
`comprehensive.score_weights` values is within 0.01 of 1.0 (so weights are
present in every accepted config, and any violating config is rejected). -/
theorem validate_config_weight_invariant (c : ValConfig)
    (h : validate_config c = true) :
    ∃ comp sw, c.comprehensive = some comp ∧ comp.score_weights = some sw ∧
      |((sw.map Prod.snd).sum) - 1| ≤ 1/100 := by
  rcases hp : c.performance with _ | perf <;>
    rcases hs : c.safety with _ | saf <;>
      rcases ht : c.training with _ | tr <;>
        rcases hc : c.comprehensive with _ | comp <;>
          rcases hk : c.key_personnel with _ | kp <;>
            simp only [validate_config, hp, hs, ht, hc, hk, Bool.and_eq_true,
              Bool.false_eq_true] at h
  obtain ⟨⟨⟨⟨-, -⟩, -⟩, hw⟩, -⟩ := h
  unfold validWeights at hw
  rcases hsw : comp.score_weights with _ | sw
  · rw [hsw] at hw
    exact absurd hw (by simp)
  · rw [hsw] at hw
    exact ⟨comp, sw, rfl, hsw, of_decide_eq_true hw⟩

/-- Witness for the C3 theorem: the standard preset passes validation and its
weights sum to exactly 1. -/
theorem validate_config_weight_invariant_witness :
    validate_config stdValConfig = true ∧
    ∃ comp sw, stdValConfig.comprehensive = some comp ∧ comp.score_weights = some sw ∧
      |((sw.map Prod.snd).sum) - 1| ≤ 1/100 := by
  have hv : validate_config stdValConfig = true := by
    have lD : (List.lookup "D"
      [("D",(0:ℚ)), ("C",3/5), ("B",9/10), ("B+",1), ("A",11/10)]) = some 0 := rfl
    have lC : (List.lookup "C"
      [("D",(0:ℚ)), ("C",3/5), ("B",9/10), ("B+",1), ("A",11/10)]) = some (3/5) := rfl
    have lB : (List.lookup "B"
      [("D",(0:ℚ)), ("C",3/5), ("B",9/10), ("B+",1), ("A",11/10)]) = some (9/10) := rfl
    have lBp : (List.lookup "B+"
      [("D",(0:ℚ)), ("C",3/5), ("B",9/10), ("B+",1), ("A",11/10)]) = some 1 := rfl
    have lA : (List.lookup "A"
      [("D",(0:ℚ)), ("C",3/5), ("B",9/10), ("B+",1), ("A",11/10)]) = some (11/10) := rfl
    simp only [validate_config, stdValConfig, validGrades, validSafetySection,
      validTrainingSection, validWeights, validKeyPersonnel, List.all_cons, List.all_nil,
      lD, lC, lB, lBp, lA]
    norm_num
  exact ⟨hv, validate_config_weight_invariant stdValConfig hv⟩

/-- C8: when validation fails, `update_custom_config` returns failure and the
store state — active configuration, change log, cache — is exactly the state
before the call (no partial apply). -/
theorem update_custom_config_no_mutation_on_invalid (st : AlgoStoreState)
    (config_data : ValConfig) (user_id : ℤ) (reason : String)
    (h : validate_config config_data = false) :
    update_custom_config st config_data user_id reason = (st, false) := by
  unfold update_custom_config
  rw [if_pos h]

/-- Witness for the C8 theorem: an empty document (missing every required
section) against a store holding the standard preset. -/
theorem update_custom_config_no_mutation_witness :
    validate_config ⟨none, none, none, none, none⟩ = false ∧
    update_custom_config
        ⟨some ⟨some "standard", false, stdValConfig⟩, [], some stdValConfig⟩
        ⟨none, none, none, none, none⟩ 1 "tuning" =
      (⟨some ⟨some "standard", false, stdValConfig⟩, [], some stdValConfig⟩, false) :=
  ⟨rfl, update_custom_config_no_mutation_on_invalid
    ⟨some ⟨some "standard", false, stdValConfig⟩, [], some stdValConfig⟩
    ⟨none, none, none, none, none⟩ 1 "tuning" rfl⟩

/- ===================== Key-personnel flag =====================
   Source: `blueprints/personnel.py`, `api_students_list` (composite scoring
   tail: reuse of the violation data to flag key personnel). -/

structure KeyPersonnelConfig where
  comprehensive_threshold : ℚ
  monthly_violation_threshold : ℚ
deriving DecidableEq

/-- Embeds `avg_freq = math.ceil(violation_count / months_active) if months_active > 0
else 0` as computed in `api_students_list`. -/
def studentsAvgFreq (violation_count : ℕ) (months_active : ℤ) : ℤ :=
  if 0 < months_active then ⌈(violation_count : ℚ) / (months_active : ℚ)⌉ else 0

/-- Embeds `is_key_personnel = (comprehensive_score < threshold) or
(avg_freq >= monthly_violation_threshold)`. -/
def api_students_is_key_personnel (kp : KeyPersonnelConfig) (comprehensive_score : ℚ)
    (violation_count : ℕ) (months_active : ℤ) : Bool :=
  decide (comprehensive_score < kp.comprehensive_threshold) ||
    decide (kp.monthly_violation_threshold ≤ (studentsAvgFreq violation_count months_active : ℚ))

/-- C6: the key-personnel flag is set iff the composite score is below the
configured threshold OR the average monthly violation frequency reaches the
configured monthly violation threshold — each condition alone suffices. -/
theorem students_key_personnel_iff (kp : KeyPersonnelConfig) (comprehensive_score : ℚ)
    (violation_count : ℕ) (months_active : ℤ) :
    api_students_is_key_personnel kp comprehensive_score violation_count months_active = true ↔
      (comprehensive_score < kp.comprehensive_threshold ∨
        kp.monthly_violation_threshold ≤ (studentsAvgFreq violation_count months_active : ℚ)) := by
  simp [api_students_is_key_personnel]

/- ===================== Stability dimension calculator =====================
   Source: `blueprints/personnel.py`, `calculate_stability_score`.  The five
   date inputs are embedded by the years value they are turned into
   (`(now - d).days / 365.25`); `None` and unparseable dates both leave the
   years at 0 and are embedded as `none`.  `np.std` computes an irrational
   square root, so the standard-deviation function is taken as an explicit
   parameter `stdDev` — every theorem below holds for all of its values. -/

structure SeniorityWeights where
  age : ℚ
  working_years : ℚ
  company_years : ℚ
  cert_years : ℚ
  solo_years : ℚ
deriving DecidableEq

structure SeniorityThresholds where
  age_cap : ℚ
  working_cap : ℚ
  company_cap : ℚ
  cert_cap : ℚ
  solo_cap : ℚ
deriving DecidableEq

structure DimensionWeights where
  seniority : ℚ
  volatility : ℚ
deriving DecidableEq

structure VolatilityPenalty where
  low_threshold : ℚ
  high_threshold : ℚ
  max_penalty : ℚ
deriving DecidableEq

structure StabilityConfig where
  seniority_weights : SeniorityWeights
  seniority_thresholds : SeniorityThresholds
  dimension_weights : DimensionWeights
  volatility_penalty : VolatilityPenalty
deriving DecidableEq

/-- Embeds `config.get('stability', {...})` default block. -/
def defaultStabilityConfig : StabilityConfig :=
  { seniority_weights :=
      { age := 15/100, working_years := 20/100, company_years := 25/100
        cert_years := 20/100, solo_years := 20/100 }
    seniority_thresholds :=
      { age_cap := 30, working_cap := 20, company_cap := 10, cert_cap := 10, solo_cap := 10 }
    dimension_weights := { seniority := 60/100, volatility := 40/100 }
    volatility_penalty := { low_threshold := 5, high_threshold := 15, max_penalty := 1/2 } }

/-- Embeds `historical_scores` dict: up to 12 monthly values per dimension. -/
structure HistoricalScores where
  performance : List ℚ
  safety : List ℚ
  training : List ℚ
deriving DecidableEq

/-- Embeds `None`/parse-failure handling: absent years count as 0. -/
def yearsVal (o : Option ℚ) : ℚ := o.getD 0

/-- One capped linear ramp `min(100, years / cap * 100)`. -/
def seniorityRamp (years cap : ℚ) : ℚ := min 100 (years / cap * 100)

/-- The weighted seniority score (dimension 1). -/
def seniorityScore (scfg : StabilityConfig)
    (birth work_start entry certification solo : Option ℚ) : ℚ :=
  seniorityRamp (yearsVal birth) scfg.seniority_thresholds.age_cap *
      scfg.seniority_weights.age +
    seniorityRamp (yearsVal work_start) scfg.seniority_thresholds.working_cap *
      scfg.seniority_weights.working_years +
    seniorityRamp (yearsVal entry) scfg.seniority_thresholds.company_cap *
      scfg.seniority_weights.company_years +
    seniorityRamp (yearsVal certification) scfg.seniority_thresholds.cert_cap *
      scfg.seniority_weights.cert_years +
    seniorityRamp (yearsVal solo) scfg.seniority_thresholds.solo_cap *
      scfg.seniority_weights.solo_years

/-- The `std_devs` list: one standard deviation per historical series of at
least two points, collected only when `historical_scores` is present and has
at least one non-empty series. -/
def stabilityStdList (stdDev : List ℚ → ℚ) (hist : Option HistoricalScores) : List ℚ :=
  match hist with
  | none => []
  | some h =>
    if !h.performance.isEmpty || !h.safety.isEmpty || !h.training.isEmpty then
      ([h.performance, h.safety, h.training].filter (fun s => decide (2 ≤ s.length))).map stdDev
    else []

/-- Embeds `volatility_coefficient`: the mean of the collected standard deviations,
0 when none were collected. -/
def volatilityCoefficient (stdDev : List ℚ → ℚ) (hist : Option HistoricalScores) : ℚ :=
  if (stabilityStdList stdDev hist).isEmpty then 0
  else (stabilityStdList stdDev hist).sum / ((stabilityStdList stdDev hist).length : ℚ)

/-- Embeds `volatility_score` (dimension 2): default 100, otherwise the three-zone
linear penalty of the volatility coefficient. -/
def volatilityScore (stdDev : List ℚ → ℚ) (scfg : StabilityConfig)
    (hist : Option HistoricalScores) : ℚ :=
  if (stabilityStdList stdDev hist).isEmpty then 100
  else if volatilityCoefficient stdDev hist ≤ scfg.volatility_penalty.low_threshold then 100
  else if scfg.volatility_penalty.high_threshold ≤ volatilityCoefficient stdDev hist then
    100 * (1 - scfg.volatility_penalty.max_penalty)
  else
    100 * (1 - scfg.volatility_penalty.max_penalty *
      ((volatilityCoefficient stdDev hist - scfg.volatility_penalty.low_threshold) /
        (scfg.volatility_penalty.high_threshold - scfg.volatility_penalty.low_threshold)))

/-- Embeds `final_score = seniority*w_seniority + volatility*w_volatility`. -/
def stabilityFinal (stdDev : List ℚ → ℚ) (cfg : Option StabilityConfig)
    (birth work_start entry certification solo : Option ℚ)
    (hist : Option HistoricalScores) : ℚ :=
  seniorityScore (cfg.getD defaultStabilityConfig) birth work_start entry certification solo *
      (cfg.getD defaultStabilityConfig).dimension_weights.seniority +
    volatilityScore stdDev (cfg.getD defaultStabilityConfig) hist *
      (cfg.getD defaultStabilityConfig).dimension_weights.volatility

/-- Result dict of `calculate_stability_score` (`metrics` flattened). -/
structure StabilityResult where
  stability_score : ℚ
  seniority_score : ℚ
  volatility_score : ℚ
  age_years : ℚ
  working_years : ℚ
  company_years : ℚ
  cert_years : ℚ
  solo_years : ℚ
  volatility : ℚ
  status_color : String
  alert_tag : String
  tier : String
deriving DecidableEq

/-- Embeds `calculate_stability_score(birth_date, work_start_date, entry_date,
certification_date, solo_driving_date, historical_scores, config)`. -/
def calculate_stability_score (stdDev : List ℚ → ℚ) (cfg : Option StabilityConfig)
    (birth work_start entry certification solo : Option ℚ)
    (hist : Option HistoricalScores) : StabilityResult :=
  { stability_score := pyRound1 (stabilityFinal stdDev cfg birth work_start entry
      certification solo hist)
    seniority_score := pyRound1 (seniorityScore (cfg.getD defaultStabilityConfig) birth
      work_start entry certification solo)
    volatility_score := pyRound1 (volatilityScore stdDev (cfg.getD defaultStabilityConfig) hist)
    age_years := pyRound1 (yearsVal birth)
    working_years := pyRound1 (yearsVal work_start)
    company_years := pyRound1 (yearsVal entry)
    cert_years := pyRound1 (yearsVal certification)
    solo_years := pyRound1 (yearsVal solo)
    volatility := pyRound2 (volatilityCoefficient stdDev hist)
    status_color :=
      if 85 ≤ stabilityFinal stdDev cfg birth work_start entry certification solo hist then
        "GREEN"
      else if 70 ≤ stabilityFinal stdDev cfg birth work_start entry certification solo hist then
        "GREEN"
      else if 50 ≤ stabilityFinal stdDev cfg birth work_start entry certification solo hist then
        "ORANGE"
      else "RED"
    alert_tag :=
      if 85 ≤ stabilityFinal stdDev cfg birth work_start entry certification solo hist then
        "✅ 稳定可靠"
      else if 70 ≤ stabilityFinal stdDev cfg birth work_start entry certification solo hist then
        "✅ 基本稳定"
      else if 50 ≤ stabilityFinal stdDev cfg birth work_start entry certification solo hist then
        "⚠️ 稳定性一般"
      else "⛔ 不稳定"
    tier :=
      (if 5 ≤ yearsVal entry ∧ 5 ≤ yearsVal certification then "资深员工"
       else if 2 ≤ yearsVal entry ∧ 2 ≤ yearsVal certification then "经验员工"
       else if 1 ≤ yearsVal certification then "新手期"
       else "新员工") ++ "·" ++
      (if volatilityCoefficient stdDev hist = 0 then "无历史数据"
       else if volatilityCoefficient stdDev hist ≤
          (cfg.getD defaultStabilityConfig).volatility_penalty.low_threshold then "表现稳定"
       else if volatilityCoefficient stdDev hist ≤
          (cfg.getD defaultStabilityConfig).volatility_penalty.high_threshold then "波动适中"
       else "高波动风险") }

/-- C10: whatever the inputs (and whatever value the standard-deviation
function takes), a final stability score of at least 70 yields status GREEN;
the 85 threshold only changes the alert tag, and the returned color is always
one of GREEN, ORANGE, RED. -/
theorem stability_green_from_70 (stdDev : List ℚ → ℚ) (cfg : Option StabilityConfig)
    (birth work_start entry certification solo : Option ℚ)
    (hist : Option HistoricalScores) :
    (70 ≤ stabilityFinal stdDev cfg birth work_start entry certification solo hist →
      (calculate_stability_score stdDev cfg birth work_start entry certification solo
        hist).status_color = "GREEN") ∧
    ((calculate_stability_score stdDev cfg birth work_start entry certification solo
        hist).status_color = "GREEN" ∨
      (calculate_stability_score stdDev cfg birth work_start entry certification solo
        hist).status_color = "ORANGE" ∨
      (calculate_stability_score stdDev cfg birth work_start entry certification solo
        hist).status_color = "RED") := by
  simp only [calculate_stability_score]
  constructor
  · intro h70
    split_ifs with h85
    · rfl
    · rfl
  · split_ifs <;> simp

/-- Witness for the C10 theorem: ten years on every seniority dimension and no
history gives final score 88 and GREEN. -/
theorem stability_green_witness :
    70 ≤ stabilityFinal (fun _ => 0) none (some 10) (some 10) (some 10) (some 10)
        (some 10) none ∧
    (calculate_stability_score (fun _ => 0) none (some 10) (some 10) (some 10) (some 10)
        (some 10) none).status_color = "GREEN" := by
  have h : stabilityFinal (fun _ => 0) none (some 10) (some 10) (some 10) (some 10)
      (some 10) none = 88 := by
    norm_num [stabilityFinal, seniorityScore, seniorityRamp, yearsVal, volatilityScore,
      stabilityStdList, defaultStabilityConfig, volatilityCoefficient]
  refine ⟨by rw [h]; norm_num, ?_⟩
  exact (stability_green_from_70 (fun _ => 0) none (some 10) (some 10) (some 10) (some 10)
    (some 10) none).1 (by rw [h]; norm_num)

/-- The claim's wording of the behavior-track frequency (refinement target):
violation count divided by a denominator floored at 1,
`ceil(count / max(1, months_active))`. -/
def specFlooredAvgFreq (violation_count : ℕ) (months_active : ℤ) : ℤ :=
  ⌈(violation_count : ℚ) / ((max 1 months_active : ℤ) : ℚ)⌉

/-- C9 counterexample: at `months_active = 0` with one violation the code
skips the division entirely and reports `avg_freq = 0`, while the claimed
`ceil(count / max(1, months_active))` is 1 — the safety calculator does not
floor its denominator at 1. -/
theorem safety_avg_freq_not_floored_division :
    (calculate_safety_score_dual_track stdSafetyConfig [1] 0).avg_freq = 0 ∧
    specFlooredAvgFreq 1 0 = 1 ∧
    (calculate_safety_score_dual_track stdSafetyConfig [1] 0).avg_freq ≠
      specFlooredAvgFreq 1 0 := by
  have h1 : (calculate_safety_score_dual_track stdSafetyConfig [1] 0).avg_freq = 0 := rfl
  have h2 : specFlooredAvgFreq 1 0 = 1 := by norm_num [specFlooredAvgFreq]
  refine ⟨h1, h2, ?_⟩
  rw [h1, h2]
  norm_num

/-- C9 (amended): `months_active` is guarded by a positivity test rather than
a max-floor — for `months_active ≥ 1` the safety `avg_freq` coincides with
`ceil(count / max(1, months_active))`, while for `months_active ≤ 0` the
division is skipped and `avg_freq = 0`; `duration_days` on the other hand IS
floored via `max(1, duration_days)` before the AFR division, so in the AFR
branch the training result for `duration_days` equals the result for
`max(1, duration_days)`. -/
theorem division_guards_amended :
    (∀ (cfg : SafetyConfig) (violations : List ℚ) (months : ℤ), 1 ≤ months →
      (calculate_safety_score_dual_track cfg violations months).avg_freq =
        specFlooredAvgFreq violations.length months) ∧
    (∀ (cfg : SafetyConfig) (violations : List ℚ) (months : ℤ), months ≤ 0 →
      (calculate_safety_score_dual_track cfg violations months).avg_freq = 0) ∧
    (∀ (cfg : TrainingConfig) (records : List TrainingRecord) (days : ℤ)
        (cert : Option ℚ), records ≠ [] →
      (failCount records : ℤ) < cfg.penalty_rules.absolute_threshold.fail_count →
      cfg.penalty_rules.small_sample.sample_size ≤ (records.length : ℤ) →
      calculate_training_score_with_penalty cfg records days cert =
        calculate_training_score_with_penalty cfg records (max 1 days) cert) := by
  refine ⟨?_, ?_, ?_⟩
  · intro cfg violations months h1
    simp only [calculate_safety_score_dual_track, specFlooredAvgFreq]
    rw [if_pos (by linarith : (0:ℤ) < months), max_eq_right h1]
  · intro cfg violations months h0
    simp only [calculate_safety_score_dual_track]
    rw [if_neg (by omega : ¬ (0:ℤ) < months)]
  · intro cfg records days cert hne hfc hss
    have hie : records.isEmpty = false := by simp [hne]
    have hmax : max 1 (max 1 days) = max 1 days := by omega
    simp only [calculate_training_score_with_penalty, hie, Bool.false_eq_true, if_false]
    have hnb : ¬((records.length : ℤ) < cfg.penalty_rules.small_sample.sample_size ∧
        0 < failCount records) := fun hx => absurd hss (not_le.mpr hx.1)
    rw [if_neg (not_le.mpr hfc), if_neg hnb, if_pos hss,
      if_neg (not_le.mpr hfc), if_neg hnb, if_pos hss, hmax]

/-- Witness for the amended C9 theorem: one violation over one month for the
safety part, and ten records with two failures over a zero-day window for the
training part. -/
theorem division_guards_amended_witness :
    (calculate_safety_score_dual_track stdSafetyConfig [1] 1).avg_freq =
      specFlooredAvgFreq 1 1 ∧
    calculate_training_score_with_penalty stdTrainingConfig
        [⟨90,1,0⟩,⟨90,1,0⟩,⟨90,1,0⟩,⟨90,1,0⟩,⟨90,1,0⟩,⟨90,1,0⟩,⟨90,1,0⟩,⟨90,1,0⟩,
          ⟨0,0,1⟩,⟨0,0,1⟩] 0 (some 3) =
      calculate_training_score_with_penalty stdTrainingConfig
        [⟨90,1,0⟩,⟨90,1,0⟩,⟨90,1,0⟩,⟨90,1,0⟩,⟨90,1,0⟩,⟨90,1,0⟩,⟨90,1,0⟩,⟨90,1,0⟩,
          ⟨0,0,1⟩,⟨0,0,1⟩] (max 1 0) (some 3) :=
  ⟨division_guards_amended.1 stdSafetyConfig [1] 1 (by norm_num),
    division_guards_amended.2.2 stdTrainingConfig
      [⟨90,1,0⟩,⟨90,1,0⟩,⟨90,1,0⟩,⟨90,1,0⟩,⟨90,1,0⟩,⟨90,1,0⟩,⟨90,1,0⟩,⟨90,1,0⟩,
        ⟨0,0,1⟩,⟨0,0,1⟩] 0 (some 3) (by simp) (by decide) (by decide)⟩
